import Mathlib

/-!
Shallow embedding of `src/App.tsx` of the visionary-app repository.

The file models the three non-trivial pieces of the source:

1. the `generateImage` API helper (App.tsx lines 32-101): request
   construction for the text-to-image and image-to-image endpoints and the
   bounded retry loop with the fixed delay schedule;
2. the combined auth-state / Firestore-listener effect (App.tsx lines
   341-409) together with the `onSnapshot` callback (lines 378-396), as an
   explicit event-driven state machine;
3. the `handleApproveDesign` controller (App.tsx lines 413-450).

External services (the HTTP generation endpoints, the auth service and the
document store) are modelled as environments supplied to the functions:
an HTTP response is its status code plus the image-payload field that the
source extracts from the response JSON, and the store write result is a
success/failure token.
-/

namespace Visionary

/-! ## Image Request Client (App.tsx lines 32-101) -/

/-- The module-level constant `const apiKey = ""` of App.tsx line 15. -/
def apiKey : String := ""

/-- The retry delay schedule, in milliseconds:
`const delays = [1000, 2000, 4000, 8000, 16000]` (App.tsx line 33). -/
def delays : List Nat := [1000, 2000, 4000, 8000, 16000]

/-- URL of the image-to-image endpoint (App.tsx line 42). -/
def imageToImageUrl : String :=
  "https://generativelanguage.googleapis.com/v1beta/models/gemini-2.5-flash-image-preview:generateContent?key="
    ++ apiKey

/-- URL of the text-to-image endpoint (App.tsx line 57). -/
def textToImageUrl : String :=
  "https://generativelanguage.googleapis.com/v1beta/models/imagen-4.0-generate-001:predict?key="
    ++ apiKey

/-- An outgoing generation request, as the source assembles it.
`geminiEdit` is the image-to-image body (App.tsx lines 43-53): the parts
array holds the prompt text and the inline image data together with its
declared mime type, and the generation config requests IMAGE response
modalities.  `imagenGenerate` is the text-to-image body (App.tsx lines
58-61): one instance holding the prompt, and a sample count parameter. -/
inductive ApiRequest where
  | geminiEdit (url : String) (text : String) (inlineData : Option String)
      (mimeType : String) (responseModalities : List String)
  | imagenGenerate (url : String) (prompt : String) (sampleCount : Nat)
deriving DecidableEq

/-- The inline payload the source extracts from a reference data URI:
`imageBase64.split(',')[1]`, that is the second comma-separated segment
(absent when the string has no comma). -/
def dataUriPayload (s : String) : Option String := (s.splitOn ",")[1]?

/-- Request construction (App.tsx lines 36-62).  With a reference image the
source takes `imageBase64.split(',')[1]` as the inline data and targets the
Gemini image-to-image endpoint; otherwise it targets the Imagen
text-to-image endpoint with `sampleCount: 1`. -/
def buildRequest (prompt : String) (imageBase64 : Option String) : ApiRequest :=
  match imageBase64 with
  | some img =>
      ApiRequest.geminiEdit imageToImageUrl prompt (dataUriPayload img)
        "image/png" ["IMAGE"]
  | none => ApiRequest.imagenGenerate textToImageUrl prompt 1

/-- One HTTP exchange with the generation endpoint, as far as the source
inspects it: the transport status code, and the image-payload field the
source extracts from the response JSON (`predictions[0].bytesBase64Encoded`
for Imagen, the first `inlineData.data` part of the first candidate for
Gemini); `none` models a response in which that field is missing. -/
structure ApiResponse where
  status : Nat
  imagePayload : Option String
deriving DecidableEq

/-- `response.ok`: the status is in the inclusive range 200-299. -/
def responseOk (r : ApiResponse) : Bool :=
  decide (200 ≤ r.status) && decide (r.status ≤ 299)

/-- The two failure classes of a single attempt (App.tsx lines 70-88):
a non-success transport status, or a missing image payload field. -/
inductive GenError where
  | httpError (status : Nat)
  | missingPayload
deriving DecidableEq

/-- One attempt body (App.tsx lines 64-90): throw on `!response.ok`, throw
when the expected image field is absent, otherwise return the data URI
built from the base64 payload. -/
def attemptResult (r : ApiResponse) : Except GenError String :=
  if responseOk r then
    match r.imagePayload with
    | some b => Except.ok ("data:image/png;base64," ++ b)
    | none => Except.error GenError.missingPayload
  else Except.error (GenError.httpError r.status)

/-- Whether a response makes the attempt fail (enter the catch block). -/
def attemptFails (r : ApiResponse) : Bool :=
  match attemptResult r with
  | Except.ok _ => false
  | Except.error _ => true

/-- The observable behaviour of one `generateImage` call: its outcome, the
request issued by each attempt (in order), and the waits performed before
each retry (in order). -/
structure GenTrace where
  result : Except GenError String
  requests : List ApiRequest
  waits : List Nat

/-- The `generateImage` helper (App.tsx lines 32-101).  `env k` is the
endpoint's response to attempt number `k` (zero-based; the source threads
this index as the `retries` argument).  On a failed attempt with
`retries < 5` the source waits `delays[retries]` and recurses with
`retries + 1`; after the guard is exhausted the error propagates. -/
def generateImage (env : Nat → ApiResponse) (prompt : String)
    (imageBase64 : Option String) (retries : Nat) : GenTrace :=
  match attemptResult (env retries) with
  | Except.ok s => ⟨Except.ok s, [buildRequest prompt imageBase64], []⟩
  | Except.error e =>
    if retries < 5 then
      let rest := generateImage env prompt imageBase64 (retries + 1)
      ⟨rest.result, buildRequest prompt imageBase64 :: rest.requests,
        delays.getD retries 0 :: rest.waits⟩
    else ⟨Except.error e, [buildRequest prompt imageBase64], []⟩
termination_by 5 - retries
decreasing_by omega

/-- Unfolding lemma: a successful attempt returns at once. -/
theorem generateImage_ok {env : Nat → ApiResponse} {r : Nat} {s : String}
    (h : attemptResult (env r) = Except.ok s) (prompt : String)
    (imageBase64 : Option String) :
    generateImage env prompt imageBase64 r =
      ⟨Except.ok s, [buildRequest prompt imageBase64], []⟩ := by
  rw [generateImage, h]

/-- Unfolding lemma: a failed attempt below the retry cap waits and
recurses. -/
theorem generateImage_err_lt {env : Nat → ApiResponse} {r : Nat}
    {e : GenError} (h : attemptResult (env r) = Except.error e) (hr : r < 5)
    (prompt : String) (imageBase64 : Option String) :
    generateImage env prompt imageBase64 r =
      ⟨(generateImage env prompt imageBase64 (r + 1)).result,
        buildRequest prompt imageBase64 ::
          (generateImage env prompt imageBase64 (r + 1)).requests,
        delays.getD r 0 ::
          (generateImage env prompt imageBase64 (r + 1)).waits⟩ := by
  rw [generateImage, h]
  simp [hr]

/-- Unfolding lemma: a failed attempt at the retry cap propagates the
error. -/
theorem generateImage_err_ge {env : Nat → ApiResponse} {r : Nat}
    {e : GenError} (h : attemptResult (env r) = Except.error e) (hr : ¬ r < 5)
    (prompt : String) (imageBase64 : Option String) :
    generateImage env prompt imageBase64 r =
      ⟨Except.error e, [buildRequest prompt imageBase64], []⟩ := by
  rw [generateImage, h]
  simp [hr]

/-- A failing attempt is exactly one whose body throws some error. -/
theorem attemptFails_true_iff (x : ApiResponse) :
    attemptFails x = true ↔ ∃ e, attemptResult x = Except.error e := by
  unfold attemptFails
  cases h : attemptResult x <;> simp

/-- Run lemma for a successful tail: if the `m` attempts starting at index
`r` fail and attempt `r + m` succeeds (with `r + m ≤ 5`), the call started
at `r` returns the success, issues one identical request per attempt, and
waits the delay-schedule entries `r, r+1, ..., r+m-1`. -/
theorem generateImage_run_ok (env : Nat → ApiResponse) (prompt : String)
    (imageBase64 : Option String) (out : String) :
    ∀ m r, r + m ≤ 5 → (∀ k, k < m → attemptFails (env (r + k)) = true) →
      attemptResult (env (r + m)) = Except.ok out →
      generateImage env prompt imageBase64 r =
        ⟨Except.ok out, List.replicate (m + 1) (buildRequest prompt imageBase64),
          (delays.drop r).take m⟩ := by
  intro m
  induction m with
  | zero =>
    intro r _ _ hsucc
    simp only [Nat.add_zero] at hsucc
    rw [generateImage_ok hsucc]
    simp
  | succ m ih =>
    intro r hle hfail hsucc
    have hf0 : attemptFails (env r) = true := by
      have := hfail 0 (by omega)
      simpa using this
    obtain ⟨e, he⟩ := (attemptFails_true_iff (env r)).mp hf0
    have hr : r < 5 := by omega
    have hrest : generateImage env prompt imageBase64 (r + 1) =
        ⟨Except.ok out, List.replicate (m + 1) (buildRequest prompt imageBase64),
          (delays.drop (r + 1)).take m⟩ := by
      apply ih (r + 1) (by omega)
      · intro k hk
        have := hfail (k + 1) (by omega)
        have harg : r + (k + 1) = r + 1 + k := by omega
        rwa [harg] at this
      · have harg : r + (m + 1) = r + 1 + m := by omega
        rwa [harg] at hsucc
    rw [generateImage_err_lt he hr, hrest]
    refine congrArg₂ (GenTrace.mk (Except.ok out)) ?_ ?_
    · simp [List.replicate_succ]
    · interval_cases r <;> simp [delays]

/-- Run lemma for total failure: if every attempt from index `r` through 5
fails (with `r + m = 5`), the call started at `r` propagates the error of
attempt 5, issues one identical request per attempt, and performs the
remaining waits of the delay schedule. -/
theorem generateImage_run_err (env : Nat → ApiResponse) (prompt : String)
    (imageBase64 : Option String) (e5 : GenError)
    (h5 : attemptResult (env 5) = Except.error e5) :
    ∀ m r, r + m = 5 → (∀ k, k ≤ m → attemptFails (env (r + k)) = true) →
      generateImage env prompt imageBase64 r =
        ⟨Except.error e5, List.replicate (m + 1) (buildRequest prompt imageBase64),
          delays.drop r⟩ := by
  intro m
  induction m with
  | zero =>
    intro r hr _
    have hr5 : r = 5 := by omega
    subst hr5
    rw [generateImage_err_ge h5 (by omega)]
    simp [delays]
  | succ m ih =>
    intro r hle hfail
    have hf0 : attemptFails (env r) = true := by
      have := hfail 0 (by omega)
      simpa using this
    obtain ⟨e, he⟩ := (attemptFails_true_iff (env r)).mp hf0
    have hr : r < 5 := by omega
    have hrest : generateImage env prompt imageBase64 (r + 1) =
        ⟨Except.error e5, List.replicate (m + 1) (buildRequest prompt imageBase64),
          delays.drop (r + 1)⟩ := by
      apply ih (r + 1) (by omega)
      intro k hk
      have := hfail (k + 1) (by omega)
      have harg : r + (k + 1) = r + 1 + k := by omega
      rwa [harg] at this
    rw [generateImage_err_lt he hr, hrest]
    refine congrArg₂ (GenTrace.mk (Except.error e5)) ?_ ?_
    · simp [List.replicate_succ]
    · interval_cases r <;> simp [delays]

/-- Every attempt of one `generateImage` call issues the same request,
namely `buildRequest prompt imageBase64`. -/
theorem generateImage_requests_const (env : Nat → ApiResponse)
    (prompt : String) (imageBase64 : Option String) :
    ∀ n r, 5 ≤ r + n →
      ∀ req ∈ (generateImage env prompt imageBase64 r).requests,
        req = buildRequest prompt imageBase64 := by
  intro n
  induction n with
  | zero =>
    intro r h5 req hreq
    cases h : attemptResult (env r) with
    | ok s =>
      rw [generateImage_ok h] at hreq
      simpa using hreq
    | error e =>
      rw [generateImage_err_ge h (by omega)] at hreq
      simpa using hreq
  | succ n ih =>
    intro r h5 req hreq
    cases h : attemptResult (env r) with
    | ok s =>
      rw [generateImage_ok h] at hreq
      simpa using hreq
    | error e =>
      by_cases hr : r < 5
      · rw [generateImage_err_lt h hr] at hreq
        simp only [List.mem_cons] at hreq
        rcases hreq with hreq | hreq
        · exact hreq
        · exact ih (r + 1) (by omega) req hreq
      · rw [generateImage_err_ge h hr] at hreq
        simpa using hreq

/-- Witness environment: attempt 0 fails with a server error, every later
attempt succeeds. -/
def envC1 : Nat → ApiResponse := fun k =>
  if k = 0 then ⟨500, none⟩ else ⟨200, some "QUJD"⟩

/-- Witness environment: every attempt fails with status 503. -/
def envC2 : Nat → ApiResponse := fun _ => ⟨503, none⟩

/-- Witness environment: every attempt succeeds. -/
def envC3 : Nat → ApiResponse := fun _ => ⟨200, some "QUJD"⟩

/-- Claim C1: for every prompt and optional reference image, if the first
`N` attempts of `generateImage` fail (non-success HTTP status or missing
image payload) with `N ≤ 5` and the next attempt succeeds, then the call
returns the successful result and performs exactly `N` retries (so `N + 1`
requests in total), waiting the first `N` entries of the fixed schedule
1s, 2s, 4s, 8s, 16s (in milliseconds) before the 1st through Nth retry. -/
theorem claim_C1_retries_then_success (env : Nat → ApiResponse)
    (prompt : String) (imageBase64 : Option String) (N : Nat) (out : String)
    (hN : N ≤ 5)
    (hfail : ∀ k, k < N → attemptFails (env k) = true)
    (hsucc : attemptResult (env N) = Except.ok out) :
    (generateImage env prompt imageBase64 0).result = Except.ok out ∧
    (generateImage env prompt imageBase64 0).requests.length = N + 1 ∧
    (generateImage env prompt imageBase64 0).waits = delays.take N := by
  have h := generateImage_run_ok env prompt imageBase64 out N 0 (by omega)
    (by intro k hk; simpa using hfail k hk) (by simpa using hsucc)
  rw [h]
  simp

/-- Witness for C1 at `N = 1`: attempt 0 fails, attempt 1 succeeds; the
call returns the success after exactly one retry with a 1000 ms wait. -/
theorem claim_C1_witness :
    attemptFails (envC1 0) = true ∧
    attemptResult (envC1 1) = Except.ok "data:image/png;base64,QUJD" ∧
    (generateImage envC1 "a red dress" none 0).result =
      Except.ok "data:image/png;base64,QUJD" ∧
    (generateImage envC1 "a red dress" none 0).requests.length = 2 ∧
    (generateImage envC1 "a red dress" none 0).waits = [1000] :=
  have h := claim_C1_retries_then_success envC1 "a red dress" none 1
    "data:image/png;base64,QUJD" (by decide) (by decide) rfl
  ⟨by decide, rfl, h.1, h.2.1, by simpa [delays] using h.2.2⟩

/-- Claim C2: if 6 consecutive attempts of `generateImage` fail, the call
propagates the failure of the 6th attempt (attempt index 5) as its error
result, issues exactly 6 requests (no 7th request), and performs the full
wait schedule. -/
theorem claim_C2_six_failures (env : Nat → ApiResponse) (prompt : String)
    (imageBase64 : Option String)
    (hfail : ∀ k, k ≤ 5 → attemptFails (env k) = true) :
    (generateImage env prompt imageBase64 0).result = attemptResult (env 5) ∧
    attemptFails (env 5) = true ∧
    (generateImage env prompt imageBase64 0).requests.length = 6 ∧
    (generateImage env prompt imageBase64 0).waits = delays := by
  obtain ⟨e5, he5⟩ := (attemptFails_true_iff (env 5)).mp (hfail 5 (by omega))
  have h := generateImage_run_err env prompt imageBase64 e5 he5 5 0 (by omega)
    (by intro k hk; simpa using hfail k hk)
  rw [h, he5]
  exact ⟨rfl, hfail 5 (by omega), by simp, by simp⟩

/-- Witness for C2: with every attempt answering 503, the call ends with
the 6th attempt's error, 6 requests and the full wait schedule. -/
theorem claim_C2_witness :
    attemptFails (envC2 5) = true ∧
    (generateImage envC2 "a red dress" none 0).result = attemptResult (envC2 5) ∧
    (generateImage envC2 "a red dress" none 0).requests.length = 6 ∧
    (generateImage envC2 "a red dress" none 0).waits = delays :=
  have h := claim_C2_six_failures envC2 "a red dress" none (by decide)
  ⟨by decide, h.1, h.2.2.1, h.2.2.2⟩

/-- Claim C3: every request issued by a `generateImage` call without a
reference image targets the text-to-image endpoint with only the
instruction text (one instance, sample count 1); every request issued by a
call with a reference image targets the image-to-image endpoint with a
body embedding both the instruction text and the reference image payload
(the part of the data URI after the first comma), declared as image/png. -/
theorem claim_C3_endpoint_selection (env : Nat → ApiResponse)
    (prompt : String) (img : String) (req req' : ApiRequest) :
    (req ∈ (generateImage env prompt none 0).requests →
      req = ApiRequest.imagenGenerate textToImageUrl prompt 1) ∧
    (req' ∈ (generateImage env prompt (some img) 0).requests →
      req' = ApiRequest.geminiEdit imageToImageUrl prompt
        (dataUriPayload img) "image/png" ["IMAGE"]) := by
  constructor
  · intro h
    have := generateImage_requests_const env prompt none 5 0 (by omega) req h
    simpa [buildRequest] using this
  · intro h
    have := generateImage_requests_const env prompt (some img) 5 0 (by omega) req' h
    simpa [buildRequest] using this

/-- Witness for C3 at a concrete prompt and reference image: the issued
requests are as the claim describes on both endpoints. -/
theorem claim_C3_witness :
    buildRequest "p" none ∈ (generateImage envC3 "p" none 0).requests ∧
    buildRequest "p" none = ApiRequest.imagenGenerate textToImageUrl "p" 1 ∧
    buildRequest "p" (some "data:image/png;base64,QUJD") ∈
      (generateImage envC3 "p" (some "data:image/png;base64,QUJD") 0).requests ∧
    buildRequest "p" (some "data:image/png;base64,QUJD") =
      ApiRequest.geminiEdit imageToImageUrl "p"
        (dataUriPayload "data:image/png;base64,QUJD") "image/png"
        ["IMAGE"] := by
  have hs1 : attemptResult (envC3 0) = Except.ok "data:image/png;base64,QUJD" := rfl
  have hm1 : buildRequest "p" none ∈ (generateImage envC3 "p" none 0).requests := by
    rw [generateImage_ok hs1]
    simp
  have hm2 : buildRequest "p" (some "data:image/png;base64,QUJD") ∈
      (generateImage envC3 "p" (some "data:image/png;base64,QUJD") 0).requests := by
    rw [generateImage_ok hs1]
    simp
  refine ⟨hm1, ?_, hm2, ?_⟩
  · exact (claim_C3_endpoint_selection envC3 "p" "x" (buildRequest "p" none)
      (buildRequest "p" none)).1 hm1
  · exact (claim_C3_endpoint_selection envC3 "p" "data:image/png;base64,QUJD"
      (buildRequest "p" none)
      (buildRequest "p" (some "data:image/png;base64,QUJD"))).2 hm2

/-! ## Realtime Sync Adapter (App.tsx lines 341-409) -/

/-- The data part of a remote `approvedDesigns` document, as the snapshot
callback reads it (`doc.data()`).  The classification field `mode` is
optional: `none` models a document in which the field is absent. -/
structure DesignDoc where
  prompt : String
  style : String
  mode : Option String
  imageUrl : String
  createdAt : Nat
deriving DecidableEq

/-- One document of a snapshot: the store-assigned id plus the data. -/
structure SnapshotDoc where
  docId : String
  data : DesignDoc
deriving DecidableEq

/-- A local `ApprovedDesign` view object (App.tsx lines 20-27). -/
structure ApprovedDesign where
  id : String
  prompt : String
  style : String
  mode : String
  imageUrl : String
  createdAt : Nat
deriving DecidableEq

/-- The per-document rebuild of the snapshot callback (App.tsx lines
380-387): `push({ id: doc.id, mode: data.mode || 'fashion', ...data })`.
Because the spread of `data` comes after the defaulted `mode` key, a
`mode` field present in the document (even a falsy one) overwrites the
default, and the default `'fashion'` survives exactly when the field is
absent; the net effect is `mode = data.mode ?? 'fashion'`. -/
def convert (d : SnapshotDoc) : ApprovedDesign :=
  { id := d.docId
    prompt := d.data.prompt
    style := d.data.style
    mode := d.data.mode.getD "fashion"
    imageUrl := d.data.imageUrl
    createdAt := d.data.createdAt }

/-- The sort order of `fetchedDesigns.sort((a, b) => b.createdAt -
a.createdAt)` (App.tsx line 389): `a` may precede `b` exactly when the
comparator is non-positive, that is when `b.createdAt ≤ a.createdAt`. -/
def byCreatedAtDesc (a b : ApprovedDesign) : Prop :=
  b.createdAt ≤ a.createdAt

instance : DecidableRel byCreatedAtDesc := fun a b =>
  Nat.decLe b.createdAt a.createdAt

instance : IsTotal ApprovedDesign byCreatedAtDesc :=
  ⟨fun a b => Nat.le_total b.createdAt a.createdAt⟩

instance : IsTrans ApprovedDesign byCreatedAtDesc :=
  ⟨fun _ _ _ hab hbc => Nat.le_trans hbc hab⟩

/-- The snapshot callback's list rebuild (App.tsx lines 379-389): map every
document of the snapshot to a local view object, then sort by creation
time descending (a stable sort, modelling the ECMAScript stable
`Array.prototype.sort`). -/
def processSnapshot (docs : List SnapshotDoc) : List ApprovedDesign :=
  List.insertionSort byCreatedAtDesc (docs.map convert)

/-- The user-visible message set by the snapshot error handler
(App.tsx line 395). -/
def fetchErrorMsg : String :=
  "Error fetching approved designs from storage. Check console for path/permissions."

/-- The mutable state touched by the combined auth/listener effect.
Snapshot listeners are identified by tokens handed out in attachment
order; `active` lists the currently attached listeners together with the
identity each is scoped to, and `unsubRef` models `unsubscribeRef.current`
(the token whose unsubscribe function the ref currently stores). -/
structure AdapterState where
  nextToken : Nat
  active : List (Nat × String)
  unsubRef : Option Nat
  userId : Option String
  designs : List ApprovedDesign
  isDbLoading : Bool
  error : Option String
deriving DecidableEq

/-- Whether the snapshot listener with token `t` is currently attached. -/
def listenerActive (s : AdapterState) (t : Nat) : Bool :=
  s.active.any (fun p => p.1 == t)

/-- The events of the effect of App.tsx lines 341-409.  `effectRun` is the
effect body running once `auth` and `db` are set (its step 1 clears the
listener stored in the ref); `authChange user` is the `onAuthStateChanged`
callback with `user` the uid of the delivered user (`none` for no user,
`some ""` for a user with an empty uid); `snapshotOk t docs` and
`snapshotErr t` are a snapshot or a listen error delivered to the snapshot
listener with token `t` (delivered only while that listener is attached);
`cleanup` is the effect's teardown function. -/
inductive AdapterEvent where
  | effectRun
  | authChange (user : Option String)
  | snapshotOk (t : Nat) (docs : List SnapshotDoc)
  | snapshotErr (t : Nat)
  | cleanup

/-- One step of the adapter, translated from App.tsx lines 341-409.

On `effectRun`, step 1 of the effect unsubscribes the listener stored in
`unsubscribeRef` and nulls the ref (lines 345-348).

On `authChange`, the callback clears the loading flag (line 352); with no
user or an empty uid it empties the local list and the user id and returns
without touching any listener (lines 354-361); with a valid uid it records
the id and attaches a fresh snapshot listener scoped to that uid, storing
the new listener's unsubscribe in the ref — the callback never releases a
previously attached listener (lines 364-399).

On `snapshotOk`, the snapshot callback rebuilds the sorted list and clears
the error state (lines 378-391); on `snapshotErr`, the error handler sets
the fetch error message (lines 392-396); both only while the listener is
attached.

On `cleanup`, the teardown unsubscribes the listener stored in the ref
(lines 403-408). -/
def step (s : AdapterState) (e : AdapterEvent) : AdapterState :=
  match e with
  | AdapterEvent.effectRun =>
    match s.unsubRef with
    | some t =>
        { s with active := s.active.filter (fun p => p.1 ≠ t), unsubRef := none }
    | none => s
  | AdapterEvent.authChange user =>
    let s1 := { s with isDbLoading := false }
    match user with
    | none => { s1 with designs := [], userId := none }
    | some uid =>
      if uid = "" then { s1 with designs := [], userId := none }
      else
        { s1 with
            userId := some uid
            active := s1.active ++ [(s1.nextToken, uid)]
            unsubRef := some s1.nextToken
            nextToken := s1.nextToken + 1 }
  | AdapterEvent.snapshotOk t docs =>
    if listenerActive s t then
      { s with designs := processSnapshot docs, error := none }
    else s
  | AdapterEvent.snapshotErr t =>
    if listenerActive s t then { s with error := some fetchErrorMsg } else s
  | AdapterEvent.cleanup =>
    match s.unsubRef with
    | some t => { s with active := s.active.filter (fun p => p.1 ≠ t) }
    | none => s

/-- The state before the effect has ever run: no listener, no identity,
empty list, loading flag set (App.tsx lines 302-309). -/
def initState : AdapterState :=
  { nextToken := 0
    active := []
    unsubRef := none
    userId := none
    designs := []
    isDbLoading := true
    error := none }

/-- Run the adapter over a sequence of delivered events. -/
def run (s : AdapterState) (events : List AdapterEvent) : AdapterState :=
  events.foldl step s

/-- Claim C4 (code evaluation): on an identity change from `alice` to
`bob` delivered to the auth-state callback, the listener scoped to `alice`
is NOT released before the listener scoped to `bob` is attached: after the
second callback both listeners are simultaneously attached, and the
unsubscribe ref only remembers `bob`'s listener, so `alice`'s can no
longer be released by the effect. -/
theorem claim_C4_listener_leak :
    (run initState [AdapterEvent.effectRun,
        AdapterEvent.authChange (some "alice"),
        AdapterEvent.authChange (some "bob")]).active =
      [(0, "alice"), (1, "bob")] ∧
    (run initState [AdapterEvent.effectRun,
        AdapterEvent.authChange (some "alice"),
        AdapterEvent.authChange (some "bob")]).unsubRef = some 1 := by
  decide

/-- Claim C7 (code evaluation): after a sign-in as `alice` followed by an
auth-state callback with no user, the callback clears the local list and
the user id and attaches no new listener — but the listener scoped to
`alice` remains attached while no identity is present, violating the
claimed invariant. -/
theorem claim_C7_listener_outlives_identity :
    (run initState [AdapterEvent.effectRun,
        AdapterEvent.authChange (some "alice"),
        AdapterEvent.authChange none]).userId = none ∧
    (run initState [AdapterEvent.effectRun,
        AdapterEvent.authChange (some "alice"),
        AdapterEvent.authChange none]).designs = [] ∧
    (run initState [AdapterEvent.effectRun,
        AdapterEvent.authChange (some "alice"),
        AdapterEvent.authChange none]).active = [(0, "alice")] := by
  decide

/-- Claim C10: every snapshot delivered to an attached listener clears the
user-visible error state, whatever error any earlier operation left
there. -/
theorem claim_C10_snapshot_clears_error (s : AdapterState) (t : Nat)
    (docs : List SnapshotDoc) (h : listenerActive s t = true) :
    (step s (AdapterEvent.snapshotOk t docs)).error = none := by
  simp [step, h]

/-- A concrete adapter state with one attached listener and a pending
error left by a failed approve write. -/
def sW : AdapterState :=
  { nextToken := 1
    active := [(0, "u1")]
    unsubRef := some 0
    userId := some "u1"
    designs := []
    isDbLoading := false
    error := some "Failed to save design to storage." }

/-- Witness for C10: a snapshot delivered to the attached listener clears
an error message set by an earlier failed approve. -/
theorem claim_C10_witness :
    listenerActive sW 0 = true ∧
    sW.error = some "Failed to save design to storage." ∧
    (step sW (AdapterEvent.snapshotOk 0 [])).error = none :=
  ⟨by decide, by decide, claim_C10_snapshot_clears_error sW 0 [] (by decide)⟩

/-- Concrete snapshot document with an explicit classification field. -/
def docA : SnapshotDoc :=
  ⟨"a", ⟨"p1", "Modernist", some "architecture", "urlA", 100⟩⟩

/-- Concrete snapshot document with the classification field absent and
the same creation time as `docA`. -/
def docB : SnapshotDoc :=
  ⟨"b", ⟨"p2", "Minimalist", none, "urlB", 100⟩⟩

/-- Counterexample to C5 as stated: a snapshot holding two documents with
equal `createdAt` produces a local list whose adjacent elements are NOT in
strictly descending creation-time order (the two timestamps are equal). -/
theorem claim_C5_counterexample :
    ¬ List.Chain' (fun x y : ApprovedDesign => y.createdAt < x.createdAt)
      ((step sW (AdapterEvent.snapshotOk 0 [docA, docB])).designs) := by
  intro hchain
  have hd : (step sW (AdapterEvent.snapshotOk 0 [docA, docB])).designs =
      [convert docA, convert docB] := by decide
  rw [hd] at hchain
  exact absurd (List.chain'_cons.mp hchain).1 (by decide)

/-- Claim C5 (amended): after every snapshot update delivered to an
attached listener, the local list is sorted by `createdAt` in descending
order with ties allowed: for every pair of adjacent elements, the earlier
element's `createdAt` is greater than or equal to the later element's. -/
theorem claim_C5_sorted_descending (s : AdapterState) (t : Nat)
    (docs : List SnapshotDoc) (h : listenerActive s t = true) :
    List.Chain' (fun x y : ApprovedDesign => y.createdAt ≤ x.createdAt)
      ((step s (AdapterEvent.snapshotOk t docs)).designs) := by
  have hd : (step s (AdapterEvent.snapshotOk t docs)).designs =
      processSnapshot docs := by
    simp [step, h]
  rw [hd]
  exact List.Pairwise.chain'
    (List.sorted_insertionSort byCreatedAtDesc (docs.map convert))

/-- Witness for the amended C5 at a concrete snapshot with a tie. -/
theorem claim_C5_witness :
    listenerActive sW 0 = true ∧
    List.Chain' (fun x y : ApprovedDesign => y.createdAt ≤ x.createdAt)
      ((step sW (AdapterEvent.snapshotOk 0 [docA, docB])).designs) :=
  ⟨by decide, claim_C5_sorted_descending sW 0 [docA, docB] (by decide)⟩

/-- Claim C6: every snapshot delivered to an attached listener rebuilds
the full local list (the new list is a permutation of the converted
snapshot contents); every document appears in it, with the default
classification `fashion` assigned exactly when the optional `mode` field
is absent and the original value kept whenever the field is present. -/
theorem claim_C6_default_classification (s : AdapterState) (t : Nat)
    (docs : List SnapshotDoc) (h : listenerActive s t = true) :
    ((step s (AdapterEvent.snapshotOk t docs)).designs).Perm
        (docs.map convert) ∧
    ∀ d ∈ docs,
      convert d ∈ (step s (AdapterEvent.snapshotOk t docs)).designs ∧
      (d.data.mode = none → (convert d).mode = "fashion") ∧
      (∀ m, d.data.mode = some m → (convert d).mode = m) := by
  have hd : (step s (AdapterEvent.snapshotOk t docs)).designs =
      processSnapshot docs := by
    simp [step, h]
  rw [hd]
  refine ⟨List.perm_insertionSort _ _, ?_⟩
  intro d hdmem
  refine ⟨?_, ?_, ?_⟩
  · exact (List.perm_insertionSort byCreatedAtDesc (docs.map convert)).mem_iff.mpr
      (List.mem_map_of_mem convert hdmem)
  · intro hnone
    simp [convert, hnone]
  · intro m hm
    simp [convert, hm]

/-- Witness for C6: in a concrete snapshot, the document with the field
keeps `architecture` and the document without it gets `fashion`, and both
appear in the rebuilt list. -/
theorem claim_C6_witness :
    listenerActive sW 0 = true ∧
    convert docA ∈ (step sW (AdapterEvent.snapshotOk 0 [docA, docB])).designs ∧
    (convert docA).mode = "architecture" ∧
    convert docB ∈ (step sW (AdapterEvent.snapshotOk 0 [docA, docB])).designs ∧
    (convert docB).mode = "fashion" :=
  have h := claim_C6_default_classification sW 0 [docA, docB] (by decide)
  ⟨by decide,
    (h.2 docA (by decide)).1,
    (h.2 docA (by decide)).2.2 "architecture" rfl,
    (h.2 docB (by decide)).1,
    (h.2 docB (by decide)).2.1 rfl⟩

/-! ## Persistence Controller: approve (App.tsx lines 413-450) -/

/-- Validation message of App.tsx line 415. -/
def approveValidationMsg : String :=
  "Cannot approve design: No generated image or storage not ready."

/-- Validation message of App.tsx line 422. -/
def approveAuthFailMsg : String :=
  "Cannot approve design: Authentication failed."

/-- Failure message of App.tsx line 446. -/
def approveSaveFailMsg : String :=
  "Failed to save design to storage."

/-- The component state read and written by `handleApproveDesign`.
`dbReady` and `authReady` model whether the `db` and `auth` instances are
set; `currentUser` models `auth.currentUser?.uid` (`none` for no current
user, `some ""` for an empty uid). -/
structure AppState where
  dbReady : Bool
  authReady : Bool
  currentUser : Option String
  currentImage : Option String
  inputText : String
  selectedStyle : String
  mode : String
  loading : Bool
  error : Option String
deriving DecidableEq

/-- Outcome of the `addDoc` store write, supplied by the environment. -/
inductive WriteResult where
  | ok
  | failed

/-- The `handleApproveDesign` controller (App.tsx lines 413-450), given
the clock value `now` (`Date.now()`) and the store's write outcome.  It
returns the updated state together with the list of records written to
the store (empty when a validation check fails before the write).

The guard `if (!db || !auth || !currentImage)` sets the first validation
message and returns; a missing or empty `auth.currentUser?.uid` sets the
second and returns.  Otherwise the new record (prompt text, style, image
data URI, mode, creation time) is written; on success the error is cleared
and the current image is cleared, on failure the save-failure message is
set and the current image is left untouched; the `finally` block resets
the loading flag either way. -/
def handleApproveDesign (s : AppState) (now : Nat) (w : WriteResult) :
    AppState × List DesignDoc :=
  match s.dbReady, s.authReady, s.currentImage with
  | false, _, _ => ({ s with error := some approveValidationMsg }, [])
  | _, false, _ => ({ s with error := some approveValidationMsg }, [])
  | _, _, none => ({ s with error := some approveValidationMsg }, [])
  | true, true, some img =>
    match s.currentUser with
    | none => ({ s with error := some approveAuthFailMsg }, [])
    | some uid =>
      if uid = "" then ({ s with error := some approveAuthFailMsg }, [])
      else
        let newDesign : DesignDoc :=
          ⟨s.inputText, s.selectedStyle, some s.mode, img, now⟩
        match w with
        | WriteResult.ok =>
          ({ s with loading := false, error := none, currentImage := none },
            [newDesign])
        | WriteResult.failed =>
          ({ s with loading := false, error := some approveSaveFailMsg },
            [newDesign])

/-- Claim C8: every invocation of the approve operation with no currently
generated image, or with the store connection or the auth instance
unavailable, or with no resolved identity, sets a validation error as the
user-visible error state and issues no store write. -/
theorem claim_C8_approve_validation (s : AppState) (now : Nat)
    (w : WriteResult)
    (h : s.currentImage = none ∨ s.dbReady = false ∨ s.authReady = false ∨
      s.currentUser = none ∨ s.currentUser = some "") :
    (handleApproveDesign s now w).2 = [] ∧
    ((handleApproveDesign s now w).1.error = some approveValidationMsg ∨
      (handleApproveDesign s now w).1.error = some approveAuthFailMsg) := by
  cases hdb : s.dbReady with
  | false => simp [handleApproveDesign, hdb]
  | true =>
    cases hauth : s.authReady with
    | false => simp [handleApproveDesign, hdb, hauth]
    | true =>
      cases himg : s.currentImage with
      | none => simp [handleApproveDesign, hdb, hauth, himg]
      | some img =>
        cases huser : s.currentUser with
        | none => simp [handleApproveDesign, hdb, hauth, himg, huser]
        | some uid =>
          have huid : uid = "" := by
            rcases h with h | h | h | h | h <;> simp_all
          subst huid
          simp [handleApproveDesign, hdb, hauth, himg, huser]

/-- Claim C9: every invocation of the approve operation that passes its
preconditions writes the new record; if the store write succeeds the
currently displayed image is cleared, and if the store write fails the
save-failure message is set as the user-visible error and the currently
displayed image is left unchanged. -/
theorem claim_C9_approve_effects (s : AppState) (now : Nat)
    (img uid : String)
    (hdb : s.dbReady = true) (hauth : s.authReady = true)
    (himg : s.currentImage = some img)
    (huser : s.currentUser = some uid) (huid : uid ≠ "") :
    (handleApproveDesign s now WriteResult.ok).1.currentImage = none ∧
    (handleApproveDesign s now WriteResult.ok).2 =
      [⟨s.inputText, s.selectedStyle, some s.mode, img, now⟩] ∧
    (handleApproveDesign s now WriteResult.failed).1.error =
      some approveSaveFailMsg ∧
    (handleApproveDesign s now WriteResult.failed).1.currentImage =
      s.currentImage ∧
    (handleApproveDesign s now WriteResult.failed).2 =
      [⟨s.inputText, s.selectedStyle, some s.mode, img, now⟩] := by
  simp [handleApproveDesign, hdb, hauth, himg, huser, huid]

/-- A concrete component state with no generated image. -/
def sNoImage : AppState :=
  { dbReady := true
    authReady := true
    currentUser := some "u1"
    currentImage := none
    inputText := "p"
    selectedStyle := "Modernist"
    mode := "architecture"
    loading := false
    error := none }

/-- Witness for C8: approving with no generated image issues no write and
sets a validation error. -/
theorem claim_C8_witness :
    sNoImage.currentImage = none ∧
    (handleApproveDesign sNoImage 7 WriteResult.ok).2 = [] ∧
    ((handleApproveDesign sNoImage 7 WriteResult.ok).1.error =
        some approveValidationMsg ∨
      (handleApproveDesign sNoImage 7 WriteResult.ok).1.error =
        some approveAuthFailMsg) :=
  have h := claim_C8_approve_validation sNoImage 7 WriteResult.ok
    (Or.inl rfl)
  ⟨rfl, h.1, h.2⟩

/-- A concrete component state passing all approve preconditions. -/
def sReady : AppState :=
  { dbReady := true
    authReady := true
    currentUser := some "u1"
    currentImage := some "data:image/png;base64,QUJD"
    inputText := "p"
    selectedStyle := "Modernist"
    mode := "architecture"
    loading := false
    error := none }

/-- Witness for C9 at a concrete ready state. -/
theorem claim_C9_witness :
    sReady.currentImage = some "data:image/png;base64,QUJD" ∧
    (handleApproveDesign sReady 7 WriteResult.ok).1.currentImage = none ∧
    (handleApproveDesign sReady 7 WriteResult.failed).1.error =
      some approveSaveFailMsg ∧
    (handleApproveDesign sReady 7 WriteResult.failed).1.currentImage =
      some "data:image/png;base64,QUJD" :=
  have h := claim_C9_approve_effects sReady 7 "data:image/png;base64,QUJD"
    "u1" rfl rfl rfl rfl (by decide)
  ⟨rfl, h.1, h.2.2.1, h.2.2.2.1⟩

end Visionary
